import Mathlib

/-!
Verification of the Account REST service (service/routes.py).

The route handlers of `service/routes.py` are embedded as pure functions over an
explicit store state `DB`.  Each handler takes the decoded request data and the
store and returns the HTTP response together with the store after the request.
The Account model (`service/models.py`) and the JSON error handlers
(`service/common`) are not part of the source tree; the definitions that stand
for them are modelled from the spec and say so in their doc comments.
-/

namespace AccountService

/-- A small JSON value type, the shape of response bodies. -/
inductive Json where
  | null
  | str (s : String)
  | num (n : Int)
  | arr (elems : List Json)
  | obj (fields : List (String × Json))

/-- The Account entity: surrogate integer key plus the data fields (spec section 3). -/
structure Account where
  id : Nat
  name : String
  email : String
  address : String
  phone_number : Option String
  date_joined : String
deriving DecidableEq

/-- Serialize an optional string field: JSON string or null. -/
def optStrJson : Option String → Json
  | some s => .str s
  | none => .null

/-- Modelled from the spec: `Account.serialize()` (service/models.py is not in the
source tree) produces a flat mapping of all fields, `date_joined` as an ISO date
string (spec sections 3 and 4.1). -/
def Account.serialize (a : Account) : Json :=
  .obj [("id", .num a.id), ("name", .str a.name), ("email", .str a.email),
        ("address", .str a.address), ("phone_number", optStrJson a.phone_number),
        ("date_joined", .str a.date_joined)]

/-- The relational store: the rows, the next auto-assigned key, and the current
date used as the default for `date_joined`. -/
structure DB where
  accounts : List Account
  nextId : Nat
  today : String
deriving DecidableEq

/-- Modelled from the spec: `Account.find(id)` returns the account with the given
integer id or an absent result, never raising for not-found (spec section 4.2). -/
def DB.find (db : DB) (id : Nat) : Option Account :=
  db.accounts.find? (fun a => a.id == id)

/-- Modelled from the spec: `Account.all()` produces the full sequence of stored
accounts, the empty sequence when the store is empty (spec section 4.2). -/
def DB.all (db : DB) : List Account :=
  db.accounts

/-- The auto-increment invariant of the relational store: every stored key was
assigned below the next generated key. -/
def DB.WF (db : DB) : Prop :=
  ∀ a ∈ db.accounts, a.id < db.nextId

instance (db : DB) : Decidable db.WF := by
  unfold DB.WF; infer_instance

/-- A request body as seen after JSON decoding: a mapping of the known account
fields, each possibly absent, or something that is not a mapping at all. -/
structure Payload where
  name : Option String
  email : Option String
  address : Option String
  phone_number : Option String
  date_joined : Option String
deriving DecidableEq

inductive Body where
  | mapping (p : Payload)
  | nonMapping
deriving DecidableEq

/-- An inbound HTTP request: the Content-Type header (absent or a string) and the
decoded body. -/
structure Req where
  contentType : Option String
  body : Body
deriving DecidableEq

/-- The validated field set produced by a successful deserialization. -/
structure Fields where
  name : String
  email : String
  address : String
  phone_number : Option String
  date_joined : Option String
deriving DecidableEq

/-- Modelled from the spec: `Account.deserialize(payload)` (service/models.py is
not in the source tree) populates the entity fields from a mapping and fails with
a validation error when the payload is not a mapping or a required field among
`name`, `email`, `address` is missing (spec section 4.1). -/
def deserialize (b : Body) : Except String Fields :=
  match b with
  | .nonMapping => .error "Invalid Account: body of request contained bad or no data"
  | .mapping p =>
    match p.name, p.email, p.address with
    | some n, some e, some ad =>
        .ok { name := n, email := e, address := ad,
              phone_number := p.phone_number, date_joined := p.date_joined }
    | none, _, _ => .error "Invalid Account: missing name"
    | some _, none, _ => .error "Invalid Account: missing email"
    | some _, some _, none => .error "Invalid Account: missing address"

/-- Modelled from the spec: `Account.create()` persists a new row and assigns the
id from the generated key (spec section 4.1); `date_joined` defaults to the
creation date when unspecified (spec section 3). -/
def DB.create (db : DB) (f : Fields) : Account × DB :=
  let a : Account :=
    { id := db.nextId, name := f.name, email := f.email, address := f.address,
      phone_number := f.phone_number,
      date_joined := f.date_joined.getD db.today }
  (a, { db with accounts := db.accounts ++ [a], nextId := db.nextId + 1 })

/-- Modelled from the spec: `Account.update()` overwrites the mutable fields of
the row identified by the primary key `id` (spec section 4.1). -/
def DB.update (db : DB) (a : Account) : DB :=
  { db with accounts := db.accounts.map (fun b => if b.id == a.id then a else b) }

/-- Modelled from the spec: `Account.delete()` removes the row with the primary
key of the entity; removing an absent row leaves the store as it was (spec
section 4.1). -/
def DB.delete (db : DB) (id : Nat) : DB :=
  { db with accounts := db.accounts.filter (fun a => a.id != id) }

/-- Populate an existing entity with a validated field set, preserving its id
(the routes call deserialize on the found instance before update). -/
def applyFields (a : Account) (f : Fields) : Account :=
  { a with name := f.name, email := f.email, address := f.address,
           phone_number := f.phone_number,
           date_joined := f.date_joined.getD a.date_joined }

inductive RespBody where
  | empty
  | json (j : Json)

/-- An HTTP response: status code, body, and the optional Location header. -/
structure Response where
  status : Nat
  body : RespBody
  location : Option String := none

/-- Modelled from the spec: the JSON error handlers of service/common (not in the
source tree) render an abort with a description as a JSON object carrying the
human-readable description under the message field (spec sections 4.4 and 7). -/
def abortResponse (code : Nat) (message : String) : Response :=
  { status := code, body := .json (.obj [("message", .str message)]) }

/-- Modelled from the spec: a validation failure raised by deserialize maps to a
400 response with the message, never a 500 (spec sections 4.4 and 7). -/
def validationErrorResponse (message : String) : Response :=
  { status := 400, body := .json (.obj [("message", .str message)]) }

/-- routes.py lines 152 to 161: `check_content_type(media_type)` returns normally
when the header is present (a truthy string) and equals the media type, and
otherwise aborts with 415 and the message naming the required type.  Here the
abort is the returned response. -/
def check_content_type (contentType : Option String) (media_type : String) : Option Response :=
  match contentType with
  | some ct =>
      if ct ≠ "" ∧ ct = media_type then none
      else some (abortResponse 415 ("Content-Type must be " ++ media_type))
  | none => some (abortResponse 415 ("Content-Type must be " ++ media_type))

/-- routes.py lines 16 to 19: the health endpoint. -/
def health (db : DB) : Response × DB :=
  ({ status := 200, body := .json (.obj [("status", .str "OK")]) }, db)

/-- routes.py lines 25 to 35: the index endpoint. -/
def index (db : DB) : Response × DB :=
  ({ status := 200,
     body := .json (.obj [("name", .str "Account REST API Service"),
                          ("version", .str "1.0")]) }, db)

/-- routes.py lines 41 to 58: POST /accounts.  Content type is checked first,
then the body is deserialized into a fresh Account, the account is created and
returned with 201 and a Location header (the placeholder "/"). -/
def create_accounts (req : Req) (db : DB) : Response × DB :=
  match check_content_type req.contentType "application/json" with
  | some resp => (resp, db)
  | none =>
    match deserialize req.body with
    | .error msg => (validationErrorResponse msg, db)
    | .ok f =>
        let r := db.create f
        ({ status := 201, body := .json r.fst.serialize, location := some "/" }, r.snd)

/-- routes.py lines 64 to 75: GET /accounts.  An empty store answers with the
empty JSON array; otherwise the list of serialized accounts. -/
def list_all_accounts (db : DB) : Response × DB :=
  let accounts := db.all
  if accounts.length = 0 then
    ({ status := 200, body := .json (.arr []) }, db)
  else
    ({ status := 200, body := .json (.arr (accounts.map Account.serialize)) }, db)

/-- routes.py lines 82 to 96: GET /accounts/{id}.  A missing id answers 404 with
the body written in the source, a found account answers 200 with its
serialization. -/
def read_account (id : Nat) (db : DB) : Response × DB :=
  match db.find id with
  | none =>
      ({ status := 404, body := .json (.obj [("error", .str "Account wasnt found")]) }, db)
  | some a =>
      ({ status := 200, body := .json a.serialize }, db)

/-- routes.py lines 102 to 122: PUT /accounts/{id}.  The handler looks the id up
first; a missing id answers 404.  Only then is the content type checked, the body
deserialized onto the found account, and the row updated. -/
def update_account (req : Req) (id : Nat) (db : DB) : Response × DB :=
  match db.find id with
  | none =>
      ({ status := 404, body := .json (.obj [("error", .str "Account not found")]) }, db)
  | some account =>
    match check_content_type req.contentType "application/json" with
    | some resp => (resp, db)
    | none =>
      match deserialize req.body with
      | .error msg => (validationErrorResponse msg, db)
      | .ok f =>
          let a2 := applyFields account f
          ({ status := 200, body := .json a2.serialize }, db.update a2)

/-- routes.py lines 130 to 142: DELETE /accounts/{id}.  A found account is
deleted; either way the answer is 204 with an empty body. -/
def delete_account (id : Nat) (db : DB) : Response × DB :=
  match db.find id with
  | some _ => ({ status := 204, body := .empty }, db.delete id)
  | none => ({ status := 204, body := .empty }, db)

/-- The empty store, used for concrete evaluations. -/
def emptyDB : DB :=
  { accounts := [], nextId := 1, today := "2024-01-01" }

/-- The create payload of scenario 1 of the spec. -/
def anaPayload : Payload :=
  { name := some "Ana", email := some "a@x.com", address := some "1 Main St",
    phone_number := some "555-1111", date_joined := some "2024-01-01" }

/-- The invalid create payload of scenario 5 of the spec: only a name. -/
def nameOnlyPayload : Payload :=
  { name := some "not enough data", email := none, address := none,
    phone_number := none, date_joined := none }

/-- A minimal valid payload: the three required fields only. -/
def minimalPayload : Payload :=
  { name := some "Ana", email := some "a@x.com", address := some "1 Main St",
    phone_number := none, date_joined := none }

/-- A store holding one account with id 1, used for concrete evaluations. -/
def oneAccountDB : DB :=
  { accounts := [{ id := 1, name := "Ana", email := "a@x.com", address := "1 Main St",
                   phone_number := none, date_joined := "2024-01-01" }],
    nextId := 2, today := "2024-01-02" }

/-! Helper lemmas shared by several theorems. -/

lemma check_content_type_none_iff (ct : Option String) :
    check_content_type ct "application/json" = none ↔ ct = some "application/json" := by
  cases ct with
  | none => simp [check_content_type]
  | some s =>
      by_cases hs : s = "application/json"
      · subst hs
        simp [check_content_type]
      · simp [check_content_type, hs]

lemma check_content_type_ne {ct : Option String} (h : ct ≠ some "application/json") :
    check_content_type ct "application/json" =
      some (abortResponse 415 "Content-Type must be application/json") := by
  cases ct with
  | none => rfl
  | some s =>
      have hs : s ≠ "application/json" := by
        intro hs; exact h (by rw [hs])
      simp [check_content_type, hs]

lemma find?_append_singleton {l : List Account} {q : Account → Bool}
    (h : ∀ x ∈ l, q x = false) (a : Account) :
    (l ++ [a]).find? q = [a].find? q := by
  induction l with
  | nil => rfl
  | cons b t ih =>
      have hb : q b = false := h b (List.mem_cons_self b t)
      have ht : ∀ x ∈ t, q x = false := fun x hx => h x (List.mem_cons_of_mem _ hx)
      simp only [List.cons_append]
      rw [List.find?_cons_of_neg _ (by simp [hb])]
      exact ih ht

lemma find?_filter_ne (l : List Account) (id : Nat) :
    (l.filter (fun a => a.id != id)).find? (fun a => a.id == id) = none := by
  induction l with
  | nil => rfl
  | cons b t ih =>
      by_cases hb : b.id = id
      · simp [List.filter_cons, hb, ih]
      · simp only [List.filter_cons]
        have hb2 : (b.id != id) = true := by simp [hb]
        rw [if_pos hb2, List.find?_cons_of_neg _ (by simp [hb])]
        exact ih

/-! The claims. -/

/-- C1: the claim says GET /accounts/{id} on an unknown id answers 404 with body
carrying the message under the key "message".  Evaluating the source at the
failing input: the status is 404 but the body keys the message under "error",
which contradicts the test suite (tests/test_routes.py line 151 reads the key
"message").  This theorem records what the code does at the failing input. -/
theorem read_account_missing_id_uses_error_key :
    (read_account 1 emptyDB).fst =
      { status := 404,
        body := .json (.obj [("error", .str "Account wasnt found")]) } := by
  rfl

/-- C2 counterexample: the claim says PUT with a wrong Content-Type answers 415
regardless of whether the id exists.  On the empty store with id 1 and
Content-Type text/html the handler answers 404, not 415: the lookup runs before
the content-type check. -/
theorem update_wrong_media_type_cex :
    (update_account { contentType := some "text/html", body := .nonMapping } 1 emptyDB).fst.status
        = 404 ∧
    ¬ (update_account { contentType := some "text/html", body := .nonMapping } 1 emptyDB).fst.status
        = 415 := by
  constructor
  · rfl
  · intro h
    simp [update_account, emptyDB, DB.find] at h

/-- C2 amended: for PUT /accounts/{id} with a Content-Type other than exactly
application/json, the handler performs the persistence lookup first.  When the id
is unknown it answers 404 with the store unchanged; when the id exists it
short-circuits with 415 naming the required media type, before any body parsing,
with the store unchanged. -/
theorem update_wrong_media_type (req : Req) (id : Nat) (db : DB)
    (h : req.contentType ≠ some "application/json") :
    (db.find id = none →
        (update_account req id db).fst.status = 404 ∧ (update_account req id db).snd = db) ∧
    (∀ a, db.find id = some a →
        (update_account req id db).fst =
          abortResponse 415 "Content-Type must be application/json" ∧
        (update_account req id db).snd = db) := by
  constructor
  · intro hfind
    simp [update_account, hfind]
  · intro a hfind
    simp [update_account, hfind, check_content_type_ne h]

/-- C2 witness: the amended theorem applied at a store holding one account with
id 1, a PUT on id 1 and a PUT on the unknown id 2, both with Content-Type
text/html. -/
theorem update_wrong_media_type_witness :
    (({ contentType := some "text/html", body := .nonMapping : Req }).contentType
        ≠ some "application/json") ∧
    (oneAccountDB.find 2 = none →
      (update_account { contentType := some "text/html", body := .nonMapping } 2
          oneAccountDB).fst.status = 404 ∧
      (update_account { contentType := some "text/html", body := .nonMapping } 2
          oneAccountDB).snd = oneAccountDB) ∧
    (∀ a, oneAccountDB.find 1 = some a →
      (update_account { contentType := some "text/html", body := .nonMapping } 1
          oneAccountDB).fst =
        abortResponse 415 "Content-Type must be application/json" ∧
      (update_account { contentType := some "text/html", body := .nonMapping } 1
          oneAccountDB).snd = oneAccountDB) := by
  refine ⟨by decide, ?_, ?_⟩
  · exact (update_wrong_media_type
      { contentType := some "text/html", body := .nonMapping } 2 oneAccountDB (by decide)).1
  · exact (update_wrong_media_type
      { contentType := some "text/html", body := .nonMapping } 1 oneAccountDB (by decide)).2

/-- C3: POST /accounts with a Content-Type other than exactly application/json
answers 415 carrying the message naming the expected media type, regardless of
what the body holds, and the store is unchanged: no account is created. -/
theorem create_wrong_media_type (req : Req) (db : DB)
    (h : req.contentType ≠ some "application/json") :
    (create_accounts req db).fst =
      abortResponse 415 "Content-Type must be application/json" ∧
    (create_accounts req db).snd = db := by
  simp [create_accounts, check_content_type_ne h]

/-- C3 witness: a POST with Content-Type text/html and a body that would have
been a perfectly valid account payload still answers 415 and creates nothing. -/
theorem create_wrong_media_type_witness :
    (({ contentType := some "text/html", body := .mapping anaPayload : Req }).contentType
      ≠ some "application/json") ∧
    ((create_accounts { contentType := some "text/html", body := .mapping anaPayload }
        emptyDB).fst = abortResponse 415 "Content-Type must be application/json" ∧
     (create_accounts { contentType := some "text/html", body := .mapping anaPayload }
        emptyDB).snd = emptyDB) :=
  ⟨by decide, create_wrong_media_type _ emptyDB (by decide)⟩

/-- C4: for any well-formed store and any valid create payload, POST /accounts
answers 201 with the created account (assigned id, Location header present), and
a subsequent GET on the returned id answers 200 with an entity whose name, email,
address and phone number equal the fields of the payload. -/
theorem create_then_read (db : DB) (p : Payload) (n e ad : String)
    (hwf : db.WF) (hn : p.name = some n) (he : p.email = some e) (ha : p.address = some ad) :
    ∃ a : Account,
      (create_accounts { contentType := some "application/json", body := .mapping p } db).fst =
        { status := 201, body := .json a.serialize, location := some "/" } ∧
      a.id = db.nextId ∧ a.name = n ∧ a.email = e ∧ a.address = ad ∧
      a.phone_number = p.phone_number ∧
      (read_account a.id
        (create_accounts { contentType := some "application/json",
                           body := .mapping p } db).snd).fst =
        { status := 200, body := .json a.serialize } := by
  have hct : check_content_type (some "application/json") "application/json" = none :=
    (check_content_type_none_iff _).mpr rfl
  have hdes : deserialize (Body.mapping p) =
      .ok { name := n, email := e, address := ad,
            phone_number := p.phone_number, date_joined := p.date_joined } := by
    simp [deserialize, hn, he, ha]
  set a : Account :=
    { id := db.nextId, name := n, email := e, address := ad,
      phone_number := p.phone_number,
      date_joined := p.date_joined.getD db.today } with ha_def
  have hcr : create_accounts { contentType := some "application/json", body := .mapping p } db =
      ({ status := 201, body := .json a.serialize, location := some "/" },
       { db with accounts := db.accounts ++ [a], nextId := db.nextId + 1 }) := by
    unfold create_accounts
    rw [hct, hdes]
    rfl
  have hfind :
      (DB.mk (db.accounts ++ [a]) (db.nextId + 1) db.today).find db.nextId = some a := by
    unfold DB.find
    have hnot : ∀ x ∈ db.accounts, (x.id == db.nextId) = false := by
      intro x hx
      have hlt := hwf x hx
      simp [Nat.ne_of_lt hlt]
    rw [find?_append_singleton hnot a]
    simp [List.find?]
  refine ⟨a, ?_, rfl, rfl, rfl, rfl, rfl, ?_⟩
  · rw [hcr]
  · rw [hcr]
    unfold read_account
    rw [show ({ db with accounts := db.accounts ++ [a], nextId := db.nextId + 1 } : DB) =
          DB.mk (db.accounts ++ [a]) (db.nextId + 1) db.today from rfl, hfind]

/-- C4 witness: the round trip applied on the empty store to the concrete payload
of scenario 1 of the spec. -/
theorem create_then_read_witness :
    emptyDB.WF ∧ anaPayload.name = some "Ana" ∧ anaPayload.email = some "a@x.com" ∧
    anaPayload.address = some "1 Main St" ∧
    (∃ a : Account,
      (create_accounts { contentType := some "application/json", body := .mapping anaPayload }
          emptyDB).fst =
        { status := 201, body := .json a.serialize, location := some "/" } ∧
      a.id = emptyDB.nextId ∧ a.name = "Ana" ∧ a.email = "a@x.com" ∧ a.address = "1 Main St" ∧
      a.phone_number = anaPayload.phone_number ∧
      (read_account a.id
        (create_accounts { contentType := some "application/json", body := .mapping anaPayload }
            emptyDB).snd).fst =
        { status := 200, body := .json a.serialize }) :=
  ⟨by decide, rfl, rfl, rfl,
   create_then_read emptyDB anaPayload
     "Ana" "a@x.com" "1 Main St" (by decide) rfl rfl rfl⟩

/-- C5: a PUT on an id that no stored account has answers 404 and leaves the
store exactly as it was: no row is created and none is modified. -/
theorem update_missing_id (req : Req) (id : Nat) (db : DB) (h : db.find id = none) :
    (update_account req id db).fst.status = 404 ∧ (update_account req id db).snd = db := by
  simp [update_account, h]

/-- C5 witness: a PUT with a valid JSON body on id 5 of the empty store. -/
theorem update_missing_id_witness :
    emptyDB.find 5 = none ∧
    ((update_account { contentType := some "application/json", body := .mapping minimalPayload }
        5 emptyDB).fst.status = 404 ∧
     (update_account { contentType := some "application/json", body := .mapping minimalPayload }
        5 emptyDB).snd = emptyDB) :=
  ⟨by decide, update_missing_id _ 5 emptyDB (by decide)⟩

/-- C6: DELETE /accounts/{id} always answers 204 with an empty body, whether or
not the id exists; after the call no account with that id is stored, and a second
DELETE on the same id answers 204 again and leaves the store unchanged. -/
theorem delete_idempotent (id : Nat) (db : DB) :
    (delete_account id db).fst = { status := 204, body := .empty } ∧
    (delete_account id db).snd.find id = none ∧
    (delete_account id (delete_account id db).snd).fst = { status := 204, body := .empty } ∧
    (delete_account id (delete_account id db).snd).snd = (delete_account id db).snd := by
  have hresp : ∀ d : DB, (delete_account id d).fst = { status := 204, body := .empty } := by
    intro d
    unfold delete_account
    cases d.find id <;> rfl
  have hnone : (delete_account id db).snd.find id = none := by
    unfold delete_account
    cases h : db.find id with
    | none => exact h
    | some a =>
        simp [DB.find, DB.delete, find?_filter_ne]
  have hdel_none : ∀ d : DB, d.find id = none →
      delete_account id d = ({ status := 204, body := .empty }, d) := by
    intro d h
    unfold delete_account
    rw [h]
  refine ⟨hresp db, hnone, ?_, ?_⟩
  · rw [hdel_none _ hnone]
  · rw [hdel_none _ hnone]

/-- C7: GET /accounts answers 200 with the JSON array of the serialized stored
accounts, an empty array and never null when the store is empty, and the length
of the array equals the number of accounts currently stored. -/
theorem list_all_accounts_ok (db : DB) :
    (list_all_accounts db).fst.status = 200 ∧
    (list_all_accounts db).fst.body = .json (.arr (db.accounts.map Account.serialize)) ∧
    (db.accounts.map Account.serialize).length = db.accounts.length := by
  by_cases h : db.accounts.length = 0
  · have hnil : db.accounts = [] := List.length_eq_zero.mp h
    simp [list_all_accounts, DB.all, hnil]
  · simp [list_all_accounts, DB.all, h]

/-- C8: a POST with Content-Type application/json whose body is not a mapping or
misses one of the required fields name, email, address answers 400, never 500,
and the store is unchanged: no account is created. -/
theorem create_invalid_body_bad_request (b : Body) (db : DB)
    (h : b = Body.nonMapping ∨
         ∃ p, b = Body.mapping p ∧ (p.name = none ∨ p.email = none ∨ p.address = none)) :
    (create_accounts { contentType := some "application/json", body := b } db).fst.status = 400 ∧
    (create_accounts { contentType := some "application/json", body := b } db).snd = db := by
  have hct : check_content_type (some "application/json") "application/json" = none :=
    (check_content_type_none_iff _).mpr rfl
  have herr : ∃ msg, deserialize b = .error msg := by
    rcases h with rfl | ⟨p, rfl, hp⟩
    · exact ⟨"Invalid Account: body of request contained bad or no data", rfl⟩
    · rcases hn : p.name with _ | n
      · exact ⟨"Invalid Account: missing name", by simp [deserialize, hn]⟩
      · rcases hem : p.email with _ | e
        · exact ⟨"Invalid Account: missing email", by simp [deserialize, hn, hem]⟩
        · rcases had : p.address with _ | ad
          · exact ⟨"Invalid Account: missing address", by simp [deserialize, hn, hem, had]⟩
          · simp [hn, hem, had] at hp
  obtain ⟨msg, hmsg⟩ := herr
  unfold create_accounts
  rw [hct, hmsg]
  exact ⟨rfl, rfl⟩

/-- C8 witness: the scenario 5 payload, a mapping holding only a name, on the
empty store. -/
theorem create_invalid_body_bad_request_witness :
    (Body.mapping nameOnlyPayload = Body.nonMapping ∨
     ∃ p, Body.mapping nameOnlyPayload = Body.mapping p ∧
          (p.name = none ∨ p.email = none ∨ p.address = none)) ∧
    ((create_accounts { contentType := some "application/json", body := .mapping nameOnlyPayload }
        emptyDB).fst.status = 400 ∧
     (create_accounts { contentType := some "application/json", body := .mapping nameOnlyPayload }
        emptyDB).snd = emptyDB) :=
  ⟨Or.inr ⟨nameOnlyPayload, rfl, Or.inr (Or.inl rfl)⟩,
   create_invalid_body_bad_request _ emptyDB (Or.inr ⟨nameOnlyPayload, rfl, Or.inr (Or.inl rfl)⟩)⟩

/-- C9: content-type acceptance on POST /accounts is exact string equality: the
response is 415 precisely when the Content-Type header is absent or is any string
other than exactly application/json, including media types merely carrying
parameters such as a charset. -/
theorem content_type_exact_match (ct : Option String) (b : Body) (db : DB) :
    (create_accounts { contentType := ct, body := b } db).fst.status = 415 ↔
      ct ≠ some "application/json" := by
  by_cases h : ct = some "application/json"
  · subst h
    have hct : check_content_type (some "application/json") "application/json" = none :=
      (check_content_type_none_iff _).mpr rfl
    constructor
    · intro hst
      exfalso
      unfold create_accounts at hst
      rw [hct] at hst
      cases hd : deserialize b with
      | error msg => rw [hd] at hst; simp [validationErrorResponse] at hst
      | ok f => rw [hd] at hst; simp at hst
    · intro hne
      exact absurd rfl hne
  · simp [create_accounts, check_content_type_ne h, abortResponse, h]

/-- C9 witness: a Content-Type that names JSON but carries a charset parameter is
rejected with 415. -/
theorem content_type_exact_match_witness :
    (create_accounts { contentType := some "application/json; charset=utf-8",
                       body := .nonMapping } emptyDB).fst.status = 415 :=
  (content_type_exact_match (some "application/json; charset=utf-8") .nonMapping emptyDB).mpr
    (by decide)

/-- C10: the read-only routes GET /health, GET /accounts and GET /accounts/{id}
never modify the store: the stored accounts after any such request equal the
stored accounts before it. -/
theorem readonly_routes_preserve_store (db : DB) (id : Nat) :
    (health db).snd = db ∧ (list_all_accounts db).snd = db ∧ (read_account id db).snd = db := by
  refine ⟨rfl, ?_, ?_⟩
  · by_cases h : db.accounts.length = 0 <;> simp [list_all_accounts, DB.all, h]
  · unfold read_account
    cases db.find id <;> rfl

end AccountService
